import Mathlib

/-!
Verification development for the profile-controller backend
(`src/backend/dist/middleware/errorHandler.js`, `src/backend/src/app.ts`).

The two persistent tables (`users`, `user_profiles`) are embedded as lists of
row structures; jsonb values as an inductive `Json` type; each HTTP handler of
`profileController` as a pure function from the database state (plus request
data) to an HTTP response and the resulting database state.  A possible SQL
error at the k-th query a handler issues (in execution order, `BEGIN`/`COMMIT`/
`ROLLBACK` excluded) is injected through a `List Bool` oracle (`true` at index
k means that query throws); handlers translate each `try`/`catch` of the
source.  Timestamp columns (`updated_at`) are not modelled.
-/

namespace MentorMatch

/-- A jsonb value, as stored in the `assessment_results` column and as sent in
JSON response bodies. -/
inductive Json where
  | null
  | bool (b : Bool)
  | num (n : Int)
  | str (s : String)
  | arr (elems : List Json)
  | obj (fields : List (String × Json))
deriving Repr

mutual

/-- Compact text rendering of a jsonb value (used by the SQL `->>` operator on
non-string fields). -/
def Json.render : Json → String
  | .null => "null"
  | .bool true => "true"
  | .bool false => "false"
  | .num n => toString n
  | .str s => "\"" ++ s ++ "\""
  | .arr xs => "[" ++ Json.renderElems xs ++ "]"
  | .obj fs => "\x7b" ++ Json.renderFields fs ++ "\x7d"

def Json.renderElems : List Json → String
  | [] => ""
  | [x] => Json.render x
  | x :: y :: xs => Json.render x ++ ", " ++ Json.renderElems (y :: xs)

def Json.renderFields : List (String × Json) → String
  | [] => ""
  | [(k, v)] => "\"" ++ k ++ "\": " ++ Json.render v
  | (k, v) :: p :: xs => "\"" ++ k ++ "\": " ++ Json.render v ++ ", " ++ Json.renderFields (p :: xs)

end

/-- Field lookup on a jsonb object (SQL `->`). -/
def Json.getField : Json → String → Option Json
  | .obj fields, k => (fields.find? (fun p => p.1 == k)).map Prod.snd
  | _, _ => none

/-- SQL `->>` on a field: text of the field's value, SQL NULL when the field is
absent or JSON null. -/
def Json.fieldText (j : Json) (k : String) : Option String :=
  match j.getField k with
  | none => none
  | some .null => none
  | some (.str s) => some s
  | some v => some v.render

/-- Whether a JSON body is an object carrying field `k`. -/
def Json.hasField (j : Json) (k : String) : Bool :=
  match j with
  | .obj fields => fields.any (fun p => p.1 == k)
  | _ => false

/-- A row of the `users` table (timestamps omitted). -/
structure UserRow where
  id : String
  email : Option String
  display_name : Option String
  photo_url : Option String
  custom_user_id : Option String
deriving Repr, DecidableEq

/-- A row of the `user_profiles` table (timestamps omitted). -/
structure ProfileRow where
  user_id : String
  major : Option String
  interests : List String
  completed_assessments : Int
  assessment_results : Option Json
deriving Repr

/-- The database state: the two tables. -/
structure DB where
  users : List UserRow
  profiles : List ProfileRow
deriving Repr

def DB.findUser (db : DB) (uid : String) : Option UserRow :=
  db.users.find? (fun u => u.id == uid)

def DB.findProfile (db : DB) (uid : String) : Option ProfileRow :=
  db.profiles.find? (fun p => p.user_id == uid)

/-- The row shape produced by the controller's
`SELECT u.id, ..., up.assessment_results FROM users u LEFT/INNER JOIN
user_profiles up ON u.id = up.user_id WHERE u.id = $1`.  Profile columns are
`Option`s because a LEFT JOIN with no matching profile yields SQL NULLs. -/
structure JoinedRow where
  id : String
  email : Option String
  display_name : Option String
  photo_url : Option String
  custom_user_id : Option String
  major : Option String
  interests : Option (List String)
  completed_assessments : Option Int
  assessment_results : Option Json
deriving Repr

def joinRow (u : UserRow) : Option ProfileRow → JoinedRow
  | some p => ⟨u.id, u.email, u.display_name, u.photo_url, u.custom_user_id,
               p.major, some p.interests, some p.completed_assessments, p.assessment_results⟩
  | none => ⟨u.id, u.email, u.display_name, u.photo_url, u.custom_user_id,
             none, none, none, none⟩

/-- The LEFT JOIN select used by `getProfile`. -/
def DB.selectJoined (db : DB) (uid : String) : Option JoinedRow :=
  (db.findUser uid).map (fun u => joinRow u (db.findProfile uid))

/-- The INNER JOIN select used at the end of `updateProfile`. -/
def DB.selectJoinedInner (db : DB) (uid : String) : Option JoinedRow :=
  match db.findUser uid, db.findProfile uid with
  | some u, some p => some (joinRow u (some p))
  | _, _ => none

def optStrJson : Option String → Json
  | none => .null
  | some s => .str s

def JoinedRow.toJson (r : JoinedRow) : Json :=
  .obj [("id", .str r.id),
        ("email", optStrJson r.email),
        ("display_name", optStrJson r.display_name),
        ("photo_url", optStrJson r.photo_url),
        ("custom_user_id", optStrJson r.custom_user_id),
        ("major", optStrJson r.major),
        ("interests", match r.interests with
          | none => .null
          | some xs => .arr (xs.map .str)),
        ("completed_assessments", match r.completed_assessments with
          | none => .null
          | some n => .num n),
        ("assessment_results", r.assessment_results.getD .null)]

def ProfileRow.toJson (p : ProfileRow) : Json :=
  .obj [("user_id", .str p.user_id),
        ("major", optStrJson p.major),
        ("interests", .arr (p.interests.map .str)),
        ("completed_assessments", .num p.completed_assessments),
        ("assessment_results", p.assessment_results.getD .null)]

def UserRow.toJson (u : UserRow) : Json :=
  .obj [("id", .str u.id),
        ("email", optStrJson u.email),
        ("display_name", optStrJson u.display_name),
        ("photo_url", optStrJson u.photo_url),
        ("custom_user_id", optStrJson u.custom_user_id)]

/-- Model of `INSERT INTO users ... ON CONFLICT (id) DO NOTHING`. -/
def DB.insertUserNoConflict (db : DB) (u : UserRow) : DB :=
  if (db.findUser u.id).isSome then db else { db with users := db.users ++ [u] }

/-- Model of `INSERT INTO user_profiles ... ON CONFLICT (user_id) DO NOTHING`. -/
def DB.insertProfileNoConflict (db : DB) (p : ProfileRow) : DB :=
  if (db.findProfile p.user_id).isSome then db else { db with profiles := db.profiles ++ [p] }

/-- Modelled from the spec: the database schema (the column defaults of the
`user_profiles` table, applied by `INSERT INTO user_profiles (user_id) VALUES
($1)`) is not under `src/`.  Per the spec a freshly created profile has
`completed_assessments = 0`, `interests = []`, `assessment_results = null`. -/
def defaultProfileRow (uid : String) : ProfileRow :=
  ⟨uid, none, [], 0, none⟩

/-- An HTTP response: status code and JSON body (`res.status(..).json(..)`;
`res.json(x)` alone is status 200; `res.json(undefined)` — an empty rowset
indexed at 0 — is modelled as a `null` body). -/
structure Response where
  status : Nat
  body : Json
deriving Repr

/-- Model of `res.status(s).json({ error: msg })`. -/
def Response.err (status : Nat) (msg : String) : Response :=
  ⟨status, .obj [("error", .str msg)]⟩

/-- The message carried by an injected SQL failure. -/
def sqlErrMsg : String := "database error"

/-- Whether the k-th query a handler issues throws a SQL error. -/
def fails (fs : List Bool) (k : Nat) : Bool := fs.getD k false

/-- Model of `errorHandler`: `err.statusCode || 500` and `err.message || 'Internal Server Error'`
(`errorHandler`, non-development mode, so no `stack` field). -/
def errorHandler (statusCode : Option Nat) (message : Option String) : Response :=
  let st : Nat :=
    match statusCode with
    | some n => if n = 0 then 500 else n
    | none => 500
  let msg : String :=
    match message with
    | some "" => "Internal Server Error"
    | some m => m
    | none => "Internal Server Error"
  ⟨st, .obj [("error", .obj [("message", .str msg)])]⟩

/-- Model of `req.user?.email?.split('@')[0]`: the substring before the first `'@'`
(the whole string when there is none). -/
def emailLocalPart (e : String) : String :=
  (e.toList.takeWhile (fun c => !(c == '@'))).asString

/-- The `users` row inserted by `getProfile`'s lazy-create path. -/
def newUserRow (uid : String) (email : Option String) : UserRow :=
  ⟨uid, email, email.map emailLocalPart, none, none⟩

/-- Model of `profileController.getProfile`.  Queries: 0 = initial LEFT JOIN select,
then inside the transaction 1 = insert user, 2 = insert profile,
3 = re-select; a failure anywhere rolls back and answers
`500 {error: 'Failed to fetch profile'}`. -/
def getProfile (db : DB) (uid : String) (email : Option String) (fs : List Bool) :
    Response × DB :=
  if fails fs 0 then (.err 500 "Failed to fetch profile", db) else
  match db.selectJoined uid with
  | some row => (⟨200, row.toJson⟩, db)
  | none =>
    if fails fs 1 then (.err 500 "Failed to fetch profile", db) else
    let db1 := db.insertUserNoConflict (newUserRow uid email)
    if fails fs 2 then (.err 500 "Failed to fetch profile", db) else
    let db2 := db1.insertProfileNoConflict (defaultProfileRow uid)
    if fails fs 3 then (.err 500 "Failed to fetch profile", db) else
    (⟨200, match db2.selectJoined uid with
           | some r => r.toJson
           | none => .null⟩, db2)

/-- The request body of `updateProfile` (each field may be absent). -/
structure UpdateProfileBody where
  major : Option String
  interests : Option (List String)
  custom_user_id : Option String
  display_name : Option String
deriving Repr

/-- JS `x || null` on a string-or-absent value: the empty string is falsy. -/
def strOrNull : Option String → Option String
  | some "" => none
  | x => x

/-- JS `String.prototype.trim`: strip leading and trailing whitespace. -/
def jsTrim (s : String) : String :=
  ((s.toList.dropWhile Char.isWhitespace).reverse.dropWhile Char.isWhitespace).reverse.asString

/-- Model of `UPDATE users SET custom_user_id = $1, display_name = $2 WHERE id = $3`. -/
def updateUserMain (db : DB) (uid : String) (cuid : Option String) (dname : String) : DB :=
  { db with users := db.users.map (fun u =>
      if u.id == uid then { u with custom_user_id := cuid, display_name := some dname } else u) }

/-- Model of `UPDATE user_profiles SET major = $1, interests = $2 WHERE user_id = $3`. -/
def updateProfileMI (db : DB) (uid : String) (major : Option String)
    (interests : List String) : DB :=
  { db with profiles := db.profiles.map (fun p =>
      if p.user_id == uid then { p with major := major, interests := interests } else p) }

/-- Model of `profileController.updateProfile`.  Validation (`!display_name ||
display_name.trim().length === 0`) precedes any query.  Queries: 0 = update
users, 1 = update user_profiles, 2 = inner-join re-select; a failure rolls the
transaction back and answers `500 {error: err.message}`. -/
def updateProfile (db : DB) (uid : String) (b : UpdateProfileBody) (fs : List Bool) :
    Response × DB :=
  match b.display_name with
  | none => (.err 400 "Display name is required", db)
  | some s =>
    if s == "" || jsTrim s == "" then (.err 400 "Display name is required", db) else
    if fails fs 0 then (.err 500 sqlErrMsg, db) else
    let db1 := updateUserMain db uid (strOrNull b.custom_user_id) (jsTrim s)
    if fails fs 1 then (.err 500 sqlErrMsg, db) else
    let db2 := updateProfileMI db1 uid (strOrNull b.major) (b.interests.getD [])
    if fails fs 2 then (.err 500 sqlErrMsg, db) else
    (⟨200, match db2.selectJoinedInner uid with
           | some r => r.toJson
           | none => .null⟩, db2)

/-- Model of `profileController.updateAssessment`.  Queries: 0 = existence check,
1 = insert-with-defaults or update; errors answer
`500 {error: 'Failed to update assessment'}`. -/
def updateAssessment (db : DB) (uid : String) (results : Json) (fs : List Bool) :
    Response × DB :=
  if fails fs 0 then (.err 500 "Failed to update assessment", db) else
  match db.findProfile uid with
  | none =>
    if fails fs 1 then (.err 500 "Failed to update assessment", db) else
    let p : ProfileRow :=
      { defaultProfileRow uid with assessment_results := some results, completed_assessments := 1 }
    ({ status := 200, body := p.toJson }, { db with profiles := db.profiles ++ [p] })
  | some _ =>
    if fails fs 1 then (.err 500 "Failed to update assessment", db) else
    let db1 := { db with profiles := db.profiles.map (fun p =>
      if p.user_id == uid then
        { p with assessment_results := some results,
                 completed_assessments := p.completed_assessments + 1 }
      else p) }
    (⟨200, match db1.findProfile uid with
           | some r => r.toJson
           | none => .null⟩, db1)

/-- SQL `x != ANY(dates)` under three-valued logic: NULL (`none`) compares to
NULL, which is not true, so the row is dropped; otherwise true iff SOME
element of `dates` differs from `x`. -/
def sqlNeqAny (x : Option String) (dates : List String) : Bool :=
  match x with
  | none => false
  | some s => dates.any (fun d => !(s == d))

/-- The jsonb value produced by
`SELECT jsonb_agg(result) FROM jsonb_array_elements(assessment_results) result
WHERE result->>'date' != ANY($1)`:
NULL input yields no rows, `jsonb_agg` over no rows is NULL; a non-array jsonb
makes `jsonb_array_elements` raise (reported as `Except.error`). -/
def filterResults (ar : Option Json) (dates : List String) : Except Unit (Option Json) :=
  match ar with
  | none => .ok none
  | some (.arr elems) =>
    let kept := elems.filter (fun e => sqlNeqAny (e.fieldText "date") dates)
    .ok (if kept.isEmpty then none else some (.arr kept))
  | some _ => .error ()

/-- Model of `profileController.deleteAssessmentResults`.  Query 0 is the single
UPDATE ... RETURNING *.  The `catch` block re-throws, so a SQL error reaches
`errorHandler` (the route wiring that forwards it is not under `src/`; per the
spec every such failure is reported as a 500 JSON error). -/
def deleteAssessmentResults (db : DB) (uid : String) (dates : List String)
    (fs : List Bool) : Response × DB :=
  if fails fs 0 then (errorHandler none (some sqlErrMsg), db) else
  match db.findProfile uid with
  | none => (.err 404 "Profile not found", db)
  | some p =>
    match filterResults p.assessment_results dates with
    | .error _ => (errorHandler none (some sqlErrMsg), db)
    | .ok newResults =>
      let db1 := { db with profiles := db.profiles.map (fun q =>
        if q.user_id == uid then
          { q with assessment_results := newResults,
                   completed_assessments := q.completed_assessments - (dates.length : Int) }
        else q) }
      (⟨200, match db1.findProfile uid with
             | some r => r.toJson
             | none => .null⟩, db1)

/-- Model of the taken-check: `SELECT id FROM users WHERE custom_user_id = $1 AND id != $2` is non-empty
(a NULL parameter matches no row under SQL equality). -/
def takenByOther (db : DB) (uid : String) (cuid : Option String) : Bool :=
  match cuid with
  | none => false
  | some c => db.users.any (fun u => u.custom_user_id == some c && !(u.id == uid))

/-- Model of `profileController.updateCustomId`.  Queries: 0 = uniqueness pre-check,
1 = UPDATE ... RETURNING *. -/
def updateCustomId (db : DB) (uid : String) (cuid : Option String) (fs : List Bool) :
    Response × DB :=
  if fails fs 0 then (.err 500 "Failed to update user ID", db) else
  if takenByOther db uid cuid then (.err 400 "This user ID is already taken", db) else
  if fails fs 1 then (.err 500 "Failed to update user ID", db) else
  let db1 := { db with users := db.users.map (fun u =>
    if u.id == uid then { u with custom_user_id := cuid } else u) }
  (⟨200, match db1.findUser uid with
         | some u => u.toJson
         | none => .null⟩, db1)

/-- Model of `profileController.checkCustomId`.  A falsy query parameter (absent or
empty string) short-circuits to `{available: true}`; query 0 is the lookup. -/
def checkCustomId (db : DB) (uid : String) (cuid : Option String) (fs : List Bool) :
    Response × DB :=
  match cuid with
  | none => (⟨200, .obj [("available", .bool true)]⟩, db)
  | some c =>
    if c == "" then (⟨200, .obj [("available", .bool true)]⟩, db) else
    if fails fs 0 then (.err 500 "Failed to check custom ID availability", db) else
    (⟨200, .obj [("available", .bool (!takenByOther db uid (some c)))]⟩, db)

/-- The regex `/^[a-zA-Z0-9_]{1,30}$/` of `checkUsername`. -/
def validUsernameFormat (s : String) : Bool :=
  decide (1 ≤ s.length) && decide (s.length ≤ 30) &&
    s.toList.all (fun c => c.isAlphanum || c == '_')

/-- Model of `profileController.checkUsername`.  Format validation precedes any query;
query 0 is the lookup. -/
def checkUsername (db : DB) (uid : String) (username : String) (fs : List Bool) :
    Response × DB :=
  if !validUsernameFormat username then
    (⟨400, .obj [("available", .bool false), ("error", .str "Invalid username format")]⟩, db)
  else
    if fails fs 0 then (.err 500 "Failed to check username availability", db) else
    (⟨200, .obj [("available", .bool (!takenByOther db uid (some username)))]⟩, db)

/-- The outcome of the multer upload middleware as `updateProfilePhoto`'s
callback sees it: an upload error, no file, or a stored file with its
generated name. -/
inductive UploadOutcome where
  | uploadErr (msg : String)
  | noFile
  | file (filename : String)
deriving Repr

/-- Model of `profileController.updateProfilePhoto`.  Query 0 is the UPDATE of
`photo_url`. -/
def updateProfilePhoto (db : DB) (uid : String) (up : UploadOutcome) (fs : List Bool) :
    Response × DB :=
  match up with
  | .uploadErr m => (.err 400 m, db)
  | .noFile => (.err 400 "No file uploaded", db)
  | .file fname =>
    if fails fs 0 then (.err 500 "Failed to update profile photo", db) else
    let url := "/uploads/profile-photos/" ++ fname
    let db1 := { db with users := db.users.map (fun u =>
      if u.id == uid then { u with photo_url := some url } else u) }
    (⟨200, .obj [("photo_url", .str url)]⟩, db1)

/-- Model of `profileController.deleteUser`.  Queries: 0 = select `photo_url`,
1 = delete profile row, 2 = delete user row; the transaction commits before
the best-effort `fs.promises.unlink` of the photo file, whose failure
(`unlinkOk = false`) is only logged.  The third component reports whether the
photo file was actually removed from disk. -/
def deleteUser (db : DB) (uid : Option String) (unlinkOk : Bool) (fs : List Bool) :
    Response × DB × Bool :=
  match uid with
  | none => (.err 401 "Unauthorized", db, false)
  | some uid =>
    if fails fs 0 then (.err 500 sqlErrMsg, db, false) else
    let photoUrl := (db.findUser uid).bind UserRow.photo_url
    if fails fs 1 then (.err 500 sqlErrMsg, db, false) else
    let db1 := { db with profiles := db.profiles.filter (fun p => !(p.user_id == uid)) }
    if fails fs 2 then (.err 500 sqlErrMsg, db, false) else
    let db2 := { db1 with users := db1.users.filter (fun u => !(u.id == uid)) }
    let removed := match photoUrl with
      | some url => if url == "" then false else unlinkOk
      | none => false
    (⟨200, .obj [("message", .str "User deleted successfully")]⟩, db2, removed)

/-- One call to any of the nine profile-controller handlers. -/
inductive Call where
  | getProfileC (uid : String) (email : Option String)
  | updateProfileC (uid : String) (b : UpdateProfileBody)
  | updateAssessmentC (uid : String) (results : Json)
  | deleteAssessmentResultsC (uid : String) (dates : List String)
  | updateCustomIdC (uid : String) (cuid : Option String)
  | checkCustomIdC (uid : String) (cuid : Option String)
  | checkUsernameC (uid : String) (username : String)
  | updateProfilePhotoC (uid : String) (up : UploadOutcome)
  | deleteUserC (uid : Option String) (unlinkOk : Bool)

/-- Dispatch a call against the database. -/
def runCall (db : DB) (c : Call) (fs : List Bool) : Response × DB :=
  match c with
  | .getProfileC uid email => getProfile db uid email fs
  | .updateProfileC uid b => updateProfile db uid b fs
  | .updateAssessmentC uid results => updateAssessment db uid results fs
  | .deleteAssessmentResultsC uid dates => deleteAssessmentResults db uid dates fs
  | .updateCustomIdC uid cuid => updateCustomId db uid cuid fs
  | .checkCustomIdC uid cuid => checkCustomId db uid cuid fs
  | .checkUsernameC uid username => checkUsername db uid username fs
  | .updateProfilePhotoC uid up => updateProfilePhoto db uid up fs
  | .deleteUserC uid unlinkOk => ((deleteUser db uid unlinkOk fs).1, (deleteUser db uid unlinkOk fs).2.1)

/-! ## Helper lemmas -/

theorem fails_nil (k : Nat) : fails [] k = false := by
  simp [fails]

theorem find?_map_update {α : Type} (key : α → String) (upd : α → α) (uid : String)
    (hk : ∀ x, key (upd x) = key x) (l : List α) :
    (l.map (fun x => if key x == uid then upd x else x)).find? (fun x => key x == uid)
      = (l.find? (fun x => key x == uid)).map upd := by
  induction l with
  | nil => rfl
  | cons a t ih =>
    by_cases h : (key a == uid) = true
    · have h2 : (key (upd a) == uid) = true := by rw [hk]; exact h
      simp only [List.map_cons, if_pos h, List.find?, if_true, h2, h, Option.map_some']
    · have h3 : (key a == uid) = false := by
        cases hb : (key a == uid)
        · rfl
        · exact absurd hb h
      simp only [List.map_cons, if_neg h, List.find?, Bool.false_eq_true, if_false, h3, ih]

theorem find?_filter_key_ne {α : Type} (key : α → String) (uid : String) (l : List α) :
    (l.filter (fun x => !(key x == uid))).find? (fun x => key x == uid) = none := by
  rw [List.find?_eq_none]
  intro x hx
  have hmem := List.mem_filter.mp hx
  intro hcontra
  rw [hcontra] at hmem
  simp at hmem

theorem filter_append_singleton_length {α : Type} (p : α → Bool) (l : List α) (x : α)
    (hl : l.find? p = none) (hx : p x = true) :
    ((l ++ [x]).filter p).length = 1 := by
  rw [List.filter_append]
  have hnil : l.filter p = [] :=
    List.filter_eq_nil_iff.mpr (fun a ha => List.find?_eq_none.mp hl a ha)
  simp [hnil, List.filter, hx]

/-! ## Claims -/

/-- The profile row used as the C1 failing input: two assessment entries,
dated `"2024-01-01"` and `"2024-01-02"`, with `completed_assessments = 2`. -/
def c1Profile : ProfileRow :=
  ⟨"u1", none, [], 2,
   some (.arr [.obj [("date", .str "2024-01-01")], .obj [("date", .str "2024-01-02")]])⟩

/-- The database holding `c1Profile`. -/
def c1DB : DB := ⟨[⟨"u1", none, none, none, none⟩], [c1Profile]⟩

/-- Claim C1 (code behavior at the failing input): calling
`deleteAssessmentResults` with `dates = ["2024-01-01", "2024-01-02"]` on a
profile whose two entries are dated exactly those two dates removes NEITHER
entry — the SQL keep-condition `result->>'date' != ANY($1)` holds for an entry
as soon as SOME element of `dates` differs from its date, which is the case
for both entries here — while `completed_assessments` is still decremented by
`dates.length = 2` (from 2 to 0).  The claim instead requires both entries to
be removed, so the code contradicts it (and its own counter arithmetic, which
assumes one removal per date). -/
theorem deleteAssessmentResults_neq_any_bug :
    (deleteAssessmentResults c1DB "u1" ["2024-01-01", "2024-01-02"] []).2.findProfile "u1"
        = some { c1Profile with completed_assessments := 0 } ∧
    (deleteAssessmentResults c1DB "u1" ["2024-01-01", "2024-01-02"] []).1.status = 200 := by
  exact ⟨rfl, rfl⟩

/-- Claim C3: whenever the request body's `display_name` is absent or trims to
the empty string, `updateProfile` answers `400 {error: 'Display name is
required'}` and leaves the database exactly as it was — the validation runs
before any query is issued. -/
theorem updateProfile_blank (db : DB) (uid : String) (b : UpdateProfileBody)
    (fs : List Bool)
    (h : b.display_name = none ∨ ∃ s, b.display_name = some s ∧ jsTrim s = "") :
    updateProfile db uid b fs = (Response.err 400 "Display name is required", db) := by
  unfold updateProfile
  rcases h with h | ⟨s, hs, ht⟩
  · rw [h]
  · rw [hs]
    simp [ht]

/-- Witness for C3 at `display_name = "  "` (whitespace only). -/
theorem updateProfile_blank_witness :
    updateProfile ⟨[], []⟩ "u1" ⟨none, none, none, some "  "⟩ []
      = (Response.err 400 "Display name is required", ⟨[], []⟩) :=
  updateProfile_blank ⟨[], []⟩ "u1" ⟨none, none, none, some "  "⟩ []
    (Or.inr ⟨"  ", rfl, rfl⟩)

/-- Helper: the full effect of `getProfile` on a fresh user id (no `users`
row, no `user_profiles` row, no SQL failures): both rows are appended and the
joined row of the new records is returned with status 200. -/
theorem getProfile_fresh_eq (db : DB) (uid : String) (email : Option String)
    (hu : db.findUser uid = none) (hp : db.findProfile uid = none) :
    getProfile db uid email []
      = (⟨200, (joinRow (newUserRow uid email) (some (defaultProfileRow uid))).toJson⟩,
         ⟨db.users ++ [newUserRow uid email], db.profiles ++ [defaultProfileRow uid]⟩) := by
  have hsel : db.selectJoined uid = none := by
    unfold DB.selectJoined
    rw [hu]
    rfl
  have hins1 : db.insertUserNoConflict (newUserRow uid email)
      = ⟨db.users ++ [newUserRow uid email], db.profiles⟩ := by
    unfold DB.insertUserNoConflict
    have h1 : db.findUser (newUserRow uid email).id = none := hu
    rw [h1]
    rfl
  have hins2 : (⟨db.users ++ [newUserRow uid email], db.profiles⟩ : DB).insertProfileNoConflict
      (defaultProfileRow uid)
      = ⟨db.users ++ [newUserRow uid email], db.profiles ++ [defaultProfileRow uid]⟩ := by
    unfold DB.insertProfileNoConflict
    have h2 : (⟨db.users ++ [newUserRow uid email], db.profiles⟩ : DB).findProfile
        (defaultProfileRow uid).user_id = none := hp
    rw [h2]
    rfl
  have hu2 : db.users.find? (fun u => u.id == uid) = none := hu
  have hp2 : db.profiles.find? (fun p => p.user_id == uid) = none := hp
  have hsel2 : (⟨db.users ++ [newUserRow uid email], db.profiles ++ [defaultProfileRow uid]⟩ : DB).selectJoined uid
      = some (joinRow (newUserRow uid email) (some (defaultProfileRow uid))) := by
    unfold DB.selectJoined DB.findUser DB.findProfile
    simp only [List.find?_append, hu2, hp2]
    simp [List.find?, newUserRow, defaultProfileRow]
  unfold getProfile
  simp only [fails_nil, Bool.false_eq_true, if_false, hsel, hins1, hins2, hsel2]

/-- Claim C2: for a user id with no `users` row and no `user_profiles` row,
`getProfile` creates exactly one row in each table (the conflict-no-op inserts
inside one transaction) and answers 200 with a joined record whose
`completed_assessments` is `0`, `interests` is `[]` and `assessment_results`
is `null`. -/
theorem getProfile_fresh_creates (db : DB) (uid : String) (email : Option String)
    (hu : db.findUser uid = none) (hp : db.findProfile uid = none) :
    ((getProfile db uid email []).2.users.filter (fun u => u.id == uid)).length = 1 ∧
    ((getProfile db uid email []).2.profiles.filter (fun p => p.user_id == uid)).length = 1 ∧
    (getProfile db uid email []).1.status = 200 ∧
    (getProfile db uid email []).1.body.getField "completed_assessments" = some (.num 0) ∧
    (getProfile db uid email []).1.body.getField "interests" = some (.arr []) ∧
    (getProfile db uid email []).1.body.getField "assessment_results" = some .null := by
  rw [getProfile_fresh_eq db uid email hu hp]
  refine ⟨?_, ?_, rfl, rfl, rfl, rfl⟩
  · exact filter_append_singleton_length _ db.users (newUserRow uid email) hu (by simp [newUserRow])
  · exact filter_append_singleton_length _ db.profiles (defaultProfileRow uid) hp (by simp [defaultProfileRow])

/-- Witness for C2 on an empty database. -/
theorem getProfile_fresh_witness :
    ((getProfile ⟨[], []⟩ "u1" (some "alice@example.com") []).2.users.filter (fun u => u.id == "u1")).length = 1 ∧
    ((getProfile ⟨[], []⟩ "u1" (some "alice@example.com") []).2.profiles.filter (fun p => p.user_id == "u1")).length = 1 ∧
    (getProfile ⟨[], []⟩ "u1" (some "alice@example.com") []).1.status = 200 ∧
    (getProfile ⟨[], []⟩ "u1" (some "alice@example.com") []).1.body.getField "completed_assessments" = some (.num 0) ∧
    (getProfile ⟨[], []⟩ "u1" (some "alice@example.com") []).1.body.getField "interests" = some (.arr []) ∧
    (getProfile ⟨[], []⟩ "u1" (some "alice@example.com") []).1.body.getField "assessment_results" = some .null :=
  getProfile_fresh_creates ⟨[], []⟩ "u1" (some "alice@example.com") rfl rfl

/-- Helper: the database `getProfile` leaves behind on the lazy-create path. -/
theorem getProfile_fresh_db2 (db : DB) (uid : String) (email : Option String)
    (hu : db.findUser uid = none) (hp : db.findProfile uid = none) :
    (getProfile db uid email []).2
      = ⟨db.users ++ [newUserRow uid email], db.profiles ++ [defaultProfileRow uid]⟩ := by
  rw [getProfile_fresh_eq db uid email hu hp]

/-- Claim C10: the `users` row inserted by `getProfile`'s lazy-create path has
`display_name` equal to the local part of the authenticated email — the
characters before the first `'@'` (`email.split('@')[0]`) — not any
caller-supplied value (the handler reads no request body at all). -/
theorem getProfile_fresh_display_name (db : DB) (uid e : String)
    (hu : db.findUser uid = none) (hp : db.findProfile uid = none) :
    (getProfile db uid (some e) []).2.findUser uid
      = some ⟨uid, some e, some ((e.toList.takeWhile (fun c => !(c == '@'))).asString), none, none⟩ := by
  rw [getProfile_fresh_db2 db uid (some e) hu hp]
  have hu2 : db.users.find? (fun u => u.id == uid) = none := hu
  unfold DB.findUser
  simp only [List.find?_append, hu2]
  simp [List.find?, newUserRow, emailLocalPart]

/-- Witness for C10 at email `alice@example.com`: `display_name = "alice"`. -/
theorem getProfile_fresh_display_name_witness :
    (getProfile ⟨[], []⟩ "u1" (some "alice@example.com") []).2.findUser "u1"
      = some ⟨"u1", some "alice@example.com", some "alice", none, none⟩ :=
  getProfile_fresh_display_name ⟨[], []⟩ "u1" "alice@example.com" rfl rfl

/-- Claim C4: `updateAssessment` replaces `assessment_results` wholesale with
the payload and bumps `completed_assessments` from N to N+1 when a profile row
exists — for EVERY payload, whatever its size — and when no profile row exists
it inserts exactly one with `assessment_results` equal to the payload and
`completed_assessments = 1`. -/
theorem updateAssessment_spec (db : DB) (uid : String) (results : Json) :
    (∀ p, db.findProfile uid = some p →
      (updateAssessment db uid results []).2.findProfile uid
        = some { p with assessment_results := some results,
                        completed_assessments := p.completed_assessments + 1 }) ∧
    (db.findProfile uid = none →
      (updateAssessment db uid results []).2.findProfile uid
        = some { user_id := uid, major := none, interests := [],
                 completed_assessments := 1, assessment_results := some results } ∧
      ((updateAssessment db uid results []).2.profiles.filter
          (fun p => p.user_id == uid)).length = 1) := by
  constructor
  · intro p hp
    have hp2 : db.profiles.find? (fun q => q.user_id == uid) = some p := hp
    have hmap : (db.profiles.map (fun q => if q.user_id == uid then
          { q with assessment_results := some results,
                   completed_assessments := q.completed_assessments + 1 } else q)).find?
            (fun q => q.user_id == uid)
        = (db.profiles.find? (fun q => q.user_id == uid)).map (fun q =>
          { q with assessment_results := some results,
                   completed_assessments := q.completed_assessments + 1 }) :=
      find?_map_update (fun q => q.user_id) (fun q =>
        { q with assessment_results := some results,
                 completed_assessments := q.completed_assessments + 1 }) uid (fun _ => rfl)
        db.profiles
    unfold updateAssessment
    simp only [fails_nil, Bool.false_eq_true, if_false, hp]
    show (db.profiles.map _).find? _ = _
    rw [hmap, hp2]
    rfl
  · intro hp
    have hp2 : db.profiles.find? (fun q => q.user_id == uid) = none := hp
    unfold updateAssessment
    simp only [fails_nil, Bool.false_eq_true, if_false, hp]
    constructor
    · show (db.profiles ++ [_]).find? _ = _
      rw [List.find?_append, hp2]
      simp [List.find?, defaultProfileRow]
    · exact filter_append_singleton_length _ db.profiles _ hp2 (by simp [defaultProfileRow])

/-- Witness for C4: an existing profile with counter 5 and an empty-array
payload goes to counter 6; a missing profile is created with counter 1. -/
theorem updateAssessment_spec_witness :
    (updateAssessment ⟨[], [⟨"u1", none, [], 5, none⟩]⟩ "u1" (.arr []) []).2.findProfile "u1"
        = some ⟨"u1", none, [], 6, some (.arr [])⟩ ∧
    (updateAssessment ⟨[], []⟩ "u1" (.arr []) []).2.findProfile "u1"
        = some ⟨"u1", none, [], 1, some (.arr [])⟩ :=
  ⟨(updateAssessment_spec ⟨[], [⟨"u1", none, [], 5, none⟩]⟩ "u1" (.arr [])).1
      ⟨"u1", none, [], 5, none⟩ rfl,
   ((updateAssessment_spec ⟨[], []⟩ "u1" (.arr [])).2 rfl).1⟩

/-- Claim C9: when the body of a valid `updateProfile` call (non-blank
`display_name`) omits `custom_user_id` or supplies the falsy empty string, the
`users` row's `custom_user_id` is overwritten with NULL (`custom_user_id ||
null` in the UPDATE) — a previously set handle is cleared, not preserved. -/
theorem updateProfile_clears_custom_id (db : DB) (uid : String) (b : UpdateProfileBody)
    (s : String) (u : UserRow)
    (hd : b.display_name = some s) (hs : jsTrim s ≠ "")
    (hc : b.custom_user_id = none ∨ b.custom_user_id = some "")
    (hu : db.findUser uid = some u) :
    (updateProfile db uid b []).2.findUser uid
      = some { u with custom_user_id := none, display_name := some (jsTrim s) } := by
  have hs0 : s ≠ "" := fun h => hs (by rw [h]; rfl)
  have hb1 : (s == "") = false := by
    rw [beq_eq_false_iff_ne]
    exact hs0
  have hb2 : (jsTrim s == "") = false := by
    rw [beq_eq_false_iff_ne]
    exact hs
  have hcu : strOrNull b.custom_user_id = none := by
    rcases hc with h | h <;> rw [h] <;> rfl
  have hu2 : db.users.find? (fun v => v.id == uid) = some u := hu
  have hmap : (db.users.map (fun v => if v.id == uid then
        { v with custom_user_id := strOrNull b.custom_user_id,
                 display_name := some (jsTrim s) } else v)).find? (fun v => v.id == uid)
      = (db.users.find? (fun v => v.id == uid)).map (fun v =>
        { v with custom_user_id := strOrNull b.custom_user_id,
                 display_name := some (jsTrim s) }) :=
    find?_map_update (fun v => v.id) (fun v =>
      { v with custom_user_id := strOrNull b.custom_user_id,
               display_name := some (jsTrim s) }) uid (fun _ => rfl) db.users
  unfold updateProfile
  rw [hd]
  simp only [hb1, hb2, Bool.or_self, Bool.false_eq_true, if_false, fails_nil]
  unfold updateProfileMI updateUserMain
  show (db.users.map _).find? _ = _
  rw [hmap, hu2, hcu]
  rfl

/-- Witness for C9: a user whose handle was `"old"` has it cleared by an
`updateProfile` body that omits `custom_user_id`. -/
theorem updateProfile_clears_custom_id_witness :
    (updateProfile ⟨[⟨"u1", none, none, none, some "old"⟩], []⟩ "u1"
        ⟨none, none, none, some "Alice"⟩ []).2.findUser "u1"
      = some ⟨"u1", none, some "Alice", none, none⟩ :=
  updateProfile_clears_custom_id ⟨[⟨"u1", none, none, none, some "old"⟩], []⟩ "u1"
    ⟨none, none, none, some "Alice"⟩ "Alice" ⟨"u1", none, none, none, some "old"⟩
    rfl (by decide) (Or.inl rfl) rfl

/-- Helper: the code's taken-check (`SELECT id FROM users WHERE custom_user_id
= $1 AND id != $2` non-empty) holds exactly when some other user already holds
the handle. -/
theorem takenByOther_iff (db : DB) (uid c : String) :
    takenByOther db uid (some c) = true
      ↔ ∃ v ∈ db.users, v.custom_user_id = some c ∧ v.id ≠ uid := by
  unfold takenByOther
  rw [List.any_eq_true]
  constructor
  · rintro ⟨v, hv, hand⟩
    rw [Bool.and_eq_true] at hand
    refine ⟨v, hv, ?_, ?_⟩
    · exact beq_iff_eq.mp hand.1
    · have := hand.2
      rw [Bool.not_eq_true'] at this
      exact beq_eq_false_iff_ne.mp this
  · rintro ⟨v, hv, h1, h2⟩
    refine ⟨v, hv, ?_⟩
    rw [Bool.and_eq_true]
    constructor
    · exact beq_iff_eq.mpr h1
    · rw [Bool.not_eq_true']
      exact beq_eq_false_iff_ne.mpr h2

/-- Claim C6: `updateCustomId` answers `400 {error: 'This user ID is already
taken'}` and writes nothing when some other user already holds the requested
handle; otherwise it sets the requesting user's `custom_user_id` and returns
the updated user record. -/
theorem updateCustomId_spec (db : DB) (uid c : String) (u : UserRow)
    (hu : db.findUser uid = some u) :
    ((∃ v ∈ db.users, v.custom_user_id = some c ∧ v.id ≠ uid) →
      updateCustomId db uid (some c) []
        = (Response.err 400 "This user ID is already taken", db)) ∧
    (¬(∃ v ∈ db.users, v.custom_user_id = some c ∧ v.id ≠ uid) →
      (updateCustomId db uid (some c) []).1
          = ⟨200, UserRow.toJson { u with custom_user_id := some c }⟩ ∧
      (updateCustomId db uid (some c) []).2.findUser uid
          = some { u with custom_user_id := some c }) := by
  constructor
  · intro h
    have ht : takenByOther db uid (some c) = true := (takenByOther_iff db uid c).mpr h
    unfold updateCustomId
    simp only [fails_nil, Bool.false_eq_true, if_false, ht, if_true]
  · intro h
    have ht : takenByOther db uid (some c) = false :=
      Bool.eq_false_iff.mpr (fun h2 => h ((takenByOther_iff db uid c).mp h2))
    have hu2 : db.users.find? (fun v => v.id == uid) = some u := hu
    have hmap : (db.users.map (fun v => if v.id == uid then
          { v with custom_user_id := some c } else v)).find? (fun v => v.id == uid)
        = (db.users.find? (fun v => v.id == uid)).map (fun v =>
          { v with custom_user_id := some c }) :=
      find?_map_update (fun v => v.id) (fun v => { v with custom_user_id := some c }) uid
        (fun _ => rfl) db.users
    have hfind : DB.findUser
        ⟨db.users.map (fun v => if v.id == uid then { v with custom_user_id := some c } else v),
         db.profiles⟩ uid = some { u with custom_user_id := some c } := by
      show (db.users.map _).find? _ = _
      rw [hmap, hu2]
      rfl
    unfold updateCustomId
    simp only [fails_nil, Bool.false_eq_true, if_false, ht, hfind]
    exact ⟨trivial, trivial⟩

/-- Witness for C6: the taken branch (another user holds `"handle"`) and the
free branch (nobody does). -/
theorem updateCustomId_spec_witness :
    (updateCustomId ⟨[⟨"u1", none, none, none, none⟩,
        ⟨"u2", none, none, none, some "handle"⟩], []⟩ "u1" (some "handle") []
      = (Response.err 400 "This user ID is already taken",
         ⟨[⟨"u1", none, none, none, none⟩, ⟨"u2", none, none, none, some "handle"⟩], []⟩)) ∧
    (updateCustomId ⟨[⟨"u1", none, none, none, none⟩], []⟩ "u1" (some "handle") []).2.findUser "u1"
      = some ⟨"u1", none, none, none, some "handle"⟩ :=
  ⟨(updateCustomId_spec ⟨[⟨"u1", none, none, none, none⟩,
        ⟨"u2", none, none, none, some "handle"⟩], []⟩ "u1" "handle"
      ⟨"u1", none, none, none, none⟩ rfl).1
      ⟨⟨"u2", none, none, none, some "handle"⟩, by decide, rfl, by decide⟩,
   ((updateCustomId_spec ⟨[⟨"u1", none, none, none, none⟩], []⟩ "u1" "handle"
      ⟨"u1", none, none, none, none⟩ rfl).2 (by decide)).2⟩

/-- Helper: the regex `/^[a-zA-Z0-9_]{1,30}$/` accepts exactly the 1-to-30
character strings of alphanumerics and underscore. -/
theorem validUsernameFormat_iff (s : String) :
    validUsernameFormat s = true
      ↔ (1 ≤ s.length ∧ s.length ≤ 30 ∧
          ∀ ch ∈ s.toList, ch.isAlphanum = true ∨ ch = '_') := by
  unfold validUsernameFormat
  simp [List.all_eq_true, Bool.or_eq_true, and_assoc]

/-- Claim C7: a username failing the 1–30 alphanumeric-or-underscore format
check makes `checkUsername` answer `400 {available: false, error: ...}`
uniformly in the database — no lookup happens — and a username passing it gets
`200 {available: b}` where `b` is true exactly when no other user's
`custom_user_id` equals the username. -/
theorem checkUsername_spec (db : DB) (uid username : String) :
    ((¬(1 ≤ username.length ∧ username.length ≤ 30 ∧
        ∀ ch ∈ username.toList, ch.isAlphanum = true ∨ ch = '_')) →
      ∀ db2 : DB, checkUsername db2 uid username []
        = (⟨400, .obj [("available", .bool false),
                       ("error", .str "Invalid username format")]⟩, db2)) ∧
    ((1 ≤ username.length ∧ username.length ≤ 30 ∧
        ∀ ch ∈ username.toList, ch.isAlphanum = true ∨ ch = '_') →
      checkUsername db uid username []
        = (⟨200, .obj [("available", .bool (!takenByOther db uid (some username)))]⟩, db) ∧
      ((!takenByOther db uid (some username)) = true
        ↔ ¬∃ v ∈ db.users, v.custom_user_id = some username ∧ v.id ≠ uid)) := by
  constructor
  · intro h db2
    have hv : validUsernameFormat username = false :=
      Bool.eq_false_iff.mpr (fun h2 => h ((validUsernameFormat_iff username).mp h2))
    unfold checkUsername
    simp [hv]
  · intro h
    have hv : validUsernameFormat username = true := (validUsernameFormat_iff username).mpr h
    constructor
    · unfold checkUsername
      simp [hv, fails_nil]
    · rw [Bool.not_eq_true', Bool.eq_false_iff]
      exact not_congr (takenByOther_iff db uid username)

/-- Witness for C7: `"ab cd"` (contains a space) is rejected without a lookup;
`"ab_cd"` is looked up on an empty database and reported available. -/
theorem checkUsername_spec_witness :
    (checkUsername ⟨[], []⟩ "u1" "ab cd" []
      = (⟨400, .obj [("available", .bool false),
                     ("error", .str "Invalid username format")]⟩, ⟨[], []⟩)) ∧
    (checkUsername ⟨[], []⟩ "u1" "ab_cd" []
      = (⟨200, .obj [("available", .bool (!takenByOther ⟨[], []⟩ "u1" (some "ab_cd")))]⟩,
         ⟨[], []⟩)) :=
  ⟨(checkUsername_spec ⟨[], []⟩ "u1" "ab cd").1 (by decide) ⟨[], []⟩,
   ((checkUsername_spec ⟨[], []⟩ "u1" "ab_cd").2 (by decide)).1⟩

/-- Claim C8: for a user with both rows present, `deleteUser` deletes the
profile row and the user row (committed before any filesystem work), answers
`200 {message: 'User deleted successfully'}`, and does so for BOTH values of
`unlinkOk` — in particular when deleting the stored photo file fails, the rows
stay deleted and the response still reports success. -/
theorem deleteUser_spec (db : DB) (uid : String) (u : UserRow) (p : ProfileRow)
    (unlinkOk : Bool) (hu : db.findUser uid = some u) (hp : db.findProfile uid = some p) :
    (deleteUser db (some uid) unlinkOk []).1
        = ⟨200, .obj [("message", .str "User deleted successfully")]⟩ ∧
    (deleteUser db (some uid) unlinkOk []).2.1.findUser uid = none ∧
    (deleteUser db (some uid) unlinkOk []).2.1.findProfile uid = none := by
  have hfu : (db.users.filter (fun x => !(x.id == uid))).find? (fun x => x.id == uid) = none :=
    find?_filter_key_ne (fun x => x.id) uid db.users
  have hfp : (db.profiles.filter (fun x => !(x.user_id == uid))).find?
      (fun x => x.user_id == uid) = none :=
    find?_filter_key_ne (fun x => x.user_id) uid db.profiles
  unfold deleteUser
  simp only [fails_nil, Bool.false_eq_true, if_false]
  exact ⟨trivial, hfu, hfp⟩

/-- Witness for C8: a user with a stored photo and `unlinkOk = false` (the
unlink fails); both rows are gone and the response is a 200 success. -/
theorem deleteUser_spec_witness :
    (deleteUser ⟨[⟨"u1", none, none, some "/uploads/profile-photos/a.png", none⟩],
        [⟨"u1", none, [], 0, none⟩]⟩ (some "u1") false []).1
        = ⟨200, .obj [("message", .str "User deleted successfully")]⟩ ∧
    (deleteUser ⟨[⟨"u1", none, none, some "/uploads/profile-photos/a.png", none⟩],
        [⟨"u1", none, [], 0, none⟩]⟩ (some "u1") false []).2.1.findUser "u1" = none ∧
    (deleteUser ⟨[⟨"u1", none, none, some "/uploads/profile-photos/a.png", none⟩],
        [⟨"u1", none, [], 0, none⟩]⟩ (some "u1") false []).2.1.findProfile "u1" = none :=
  deleteUser_spec ⟨[⟨"u1", none, none, some "/uploads/profile-photos/a.png", none⟩],
      [⟨"u1", none, [], 0, none⟩]⟩ "u1"
    ⟨"u1", none, none, some "/uploads/profile-photos/a.png", none⟩
    ⟨"u1", none, [], 0, none⟩ false rfl rfl

/-- Helper for C5: `getProfile` either succeeds (status < 400) or reports an
`error` body and leaves the database untouched. -/
theorem getProfile_err_or (db : DB) (uid : String) (email : Option String) (fs : List Bool) :
    (getProfile db uid email fs).1.status < 400 ∨
    ((getProfile db uid email fs).1.body.hasField "error" = true ∧
      (getProfile db uid email fs).2 = db) := by
  unfold getProfile
  repeat' split
  all_goals first
    | exact Or.inl (by show (200 : Nat) < 400; decide)
    | exact Or.inr ⟨rfl, rfl⟩

/-- Helper for C5: same contract for `updateProfile`. -/
theorem updateProfile_err_or (db : DB) (uid : String) (b : UpdateProfileBody) (fs : List Bool) :
    (updateProfile db uid b fs).1.status < 400 ∨
    ((updateProfile db uid b fs).1.body.hasField "error" = true ∧
      (updateProfile db uid b fs).2 = db) := by
  unfold updateProfile
  repeat' split
  all_goals first
    | exact Or.inl (by show (200 : Nat) < 400; decide)
    | exact Or.inr ⟨rfl, rfl⟩

/-- Helper for C5: same contract for `updateAssessment`. -/
theorem updateAssessment_err_or (db : DB) (uid : String) (results : Json) (fs : List Bool) :
    (updateAssessment db uid results fs).1.status < 400 ∨
    ((updateAssessment db uid results fs).1.body.hasField "error" = true ∧
      (updateAssessment db uid results fs).2 = db) := by
  unfold updateAssessment
  repeat' split
  all_goals first
    | exact Or.inl (by show (200 : Nat) < 400; decide)
    | exact Or.inr ⟨rfl, rfl⟩

/-- Helper for C5: same contract for `deleteAssessmentResults` (whose SQL
errors surface through `errorHandler`). -/
theorem deleteAssessmentResults_err_or (db : DB) (uid : String) (dates : List String)
    (fs : List Bool) :
    (deleteAssessmentResults db uid dates fs).1.status < 400 ∨
    ((deleteAssessmentResults db uid dates fs).1.body.hasField "error" = true ∧
      (deleteAssessmentResults db uid dates fs).2 = db) := by
  unfold deleteAssessmentResults
  repeat' split
  all_goals first
    | exact Or.inl (by show (200 : Nat) < 400; decide)
    | exact Or.inr ⟨rfl, rfl⟩

/-- Helper for C5: same contract for `updateCustomId`. -/
theorem updateCustomId_err_or (db : DB) (uid : String) (cuid : Option String) (fs : List Bool) :
    (updateCustomId db uid cuid fs).1.status < 400 ∨
    ((updateCustomId db uid cuid fs).1.body.hasField "error" = true ∧
      (updateCustomId db uid cuid fs).2 = db) := by
  unfold updateCustomId
  repeat' split
  all_goals first
    | exact Or.inl (by show (200 : Nat) < 400; decide)
    | exact Or.inr ⟨rfl, rfl⟩

/-- Helper for C5: same contract for `checkCustomId`. -/
theorem checkCustomId_err_or (db : DB) (uid : String) (cuid : Option String) (fs : List Bool) :
    (checkCustomId db uid cuid fs).1.status < 400 ∨
    ((checkCustomId db uid cuid fs).1.body.hasField "error" = true ∧
      (checkCustomId db uid cuid fs).2 = db) := by
  unfold checkCustomId
  repeat' split
  all_goals first
    | exact Or.inl (by show (200 : Nat) < 400; decide)
    | exact Or.inr ⟨rfl, rfl⟩

/-- Helper for C5: same contract for `checkUsername` (its 400 body carries
both `available: false` and an `error` field). -/
theorem checkUsername_err_or (db : DB) (uid username : String) (fs : List Bool) :
    (checkUsername db uid username fs).1.status < 400 ∨
    ((checkUsername db uid username fs).1.body.hasField "error" = true ∧
      (checkUsername db uid username fs).2 = db) := by
  unfold checkUsername
  repeat' split
  all_goals first
    | exact Or.inl (by show (200 : Nat) < 400; decide)
    | exact Or.inr ⟨rfl, rfl⟩

/-- Helper for C5: same contract for `updateProfilePhoto`. -/
theorem updateProfilePhoto_err_or (db : DB) (uid : String) (up : UploadOutcome)
    (fs : List Bool) :
    (updateProfilePhoto db uid up fs).1.status < 400 ∨
    ((updateProfilePhoto db uid up fs).1.body.hasField "error" = true ∧
      (updateProfilePhoto db uid up fs).2 = db) := by
  unfold updateProfilePhoto
  repeat' split
  all_goals first
    | exact Or.inl (by show (200 : Nat) < 400; decide)
    | exact Or.inr ⟨rfl, rfl⟩

/-- Helper for C5: same contract for `deleteUser` (database component of the
triple). -/
theorem deleteUser_err_or (db : DB) (uid : Option String) (unlinkOk : Bool) (fs : List Bool) :
    (deleteUser db uid unlinkOk fs).1.status < 400 ∨
    ((deleteUser db uid unlinkOk fs).1.body.hasField "error" = true ∧
      (deleteUser db uid unlinkOk fs).2.1 = db) := by
  unfold deleteUser
  repeat' split
  all_goals first
    | exact Or.inl (by show (200 : Nat) < 400; decide)
    | exact Or.inr ⟨rfl, rfl⟩

/-- Claim C5: for every profile-controller operation, every input and every
SQL-failure pattern, a response with status ≥ 400 (validation error, conflict,
not-found, unauthenticated, SQL error, re-thrown error via `errorHandler`)
carries a JSON body with an `error` field, and the database is exactly the
pre-call state — a failed transaction is rolled back, so no half-updated
record is ever returned. -/
theorem runCall_error_contract (db : DB) (c : Call) (fs : List Bool)
    (h : 400 ≤ (runCall db c fs).1.status) :
    (runCall db c fs).1.body.hasField "error" = true ∧ (runCall db c fs).2 = db := by
  cases c with
  | getProfileC uid email =>
    rcases getProfile_err_or db uid email fs with hlt | hok
    · dsimp only [runCall] at h
      omega
    · exact hok
  | updateProfileC uid b =>
    rcases updateProfile_err_or db uid b fs with hlt | hok
    · dsimp only [runCall] at h
      omega
    · exact hok
  | updateAssessmentC uid results =>
    rcases updateAssessment_err_or db uid results fs with hlt | hok
    · dsimp only [runCall] at h
      omega
    · exact hok
  | deleteAssessmentResultsC uid dates =>
    rcases deleteAssessmentResults_err_or db uid dates fs with hlt | hok
    · dsimp only [runCall] at h
      omega
    · exact hok
  | updateCustomIdC uid cuid =>
    rcases updateCustomId_err_or db uid cuid fs with hlt | hok
    · dsimp only [runCall] at h
      omega
    · exact hok
  | checkCustomIdC uid cuid =>
    rcases checkCustomId_err_or db uid cuid fs with hlt | hok
    · dsimp only [runCall] at h
      omega
    · exact hok
  | checkUsernameC uid username =>
    rcases checkUsername_err_or db uid username fs with hlt | hok
    · dsimp only [runCall] at h
      omega
    · exact hok
  | updateProfilePhotoC uid up =>
    rcases updateProfilePhoto_err_or db uid up fs with hlt | hok
    · dsimp only [runCall] at h
      omega
    · exact hok
  | deleteUserC uid unlinkOk =>
    rcases deleteUser_err_or db uid unlinkOk fs with hlt | hok
    · dsimp only [runCall] at h
      omega
    · exact hok

/-- Witness for C5: the 400 of a blank `updateProfile` carries an `error`
field and mutates nothing. -/
theorem runCall_error_contract_witness :
    (runCall ⟨[], []⟩ (.updateProfileC "u1" ⟨none, none, none, none⟩) []).1.body.hasField
        "error" = true ∧
    (runCall ⟨[], []⟩ (.updateProfileC "u1" ⟨none, none, none, none⟩) []).2 = ⟨[], []⟩ :=
  runCall_error_contract ⟨[], []⟩ (.updateProfileC "u1" ⟨none, none, none, none⟩) []
    (by decide)

end MentorMatch
